import Mathlib

/-!
# Frostbite player character: movement component, character and controller

A shallow embedding of the gameplay formulas of the Frostbite player character
(`PlayerCharacterMovementComponent.cpp`, `PlayerCharacter.cpp`,
`PlayerCharacterController.cpp`, `PlayerCameraController.cpp`).

Conventions of the embedding:

* engine objects are records, member functions are functions on those records;
* a pointer that the source tests against `nullptr` is an `Option`; a pointer
  that the source dereferences unconditionally is a plain field;
* `float` and `double` values are exact rationals (`ℚ`), so that every
  comparison against a threshold is decidable and every definition evaluates;
* a multicast delegate is the list of the values broadcast on it, oldest first;
* engine functions whose value the game code only passes on (cosine, rotation
  of vectors, line traces, frame time) are arguments, alone or bundled in
  `UEngine`; the functions of `FMath` that decide a result are written out.
-/

namespace Frostbite

/-! ## Engine vocabulary -/

/-- The engine's three-component vector. -/
structure FVector where
  X : ℚ
  Y : ℚ
  Z : ℚ
  deriving DecidableEq

/-- The constant `FVector::ZeroVector`. -/
def FVector.ZeroVector : FVector := ⟨0, 0, 0⟩

/-- The engine function `FVector::SquaredLength()`. -/
def FVector.SquaredLength (v : FVector) : ℚ := v.X * v.X + v.Y * v.Y + v.Z * v.Z

/-- The engine's vector sum, `operator+` of `FVector`. -/
def FVector.Add (a b : FVector) : FVector := ⟨a.X + b.X, a.Y + b.Y, a.Z + b.Z⟩

/-- The engine's vector difference, `operator-` of `FVector`. -/
def FVector.Sub (a b : FVector) : FVector := ⟨a.X - b.X, a.Y - b.Y, a.Z - b.Z⟩

/-- The engine's product of a vector with a scalar, `operator*` of `FVector`. -/
def FVector.Scale (a : FVector) (Scale : ℚ) : FVector := ⟨a.X * Scale, a.Y * Scale, a.Z * Scale⟩

/-- The engine's rotator, in degrees. -/
structure FRotator where
  Pitch : ℚ
  Yaw : ℚ
  Roll : ℚ
  deriving DecidableEq

/-- The default-constructed rotator `FRotator()`, as the engine zeroes it. -/
def FRotator.ZeroRotator : FRotator := ⟨0, 0, 0⟩

/-- The engine's component-wise sum of rotators, `operator+` of `FRotator`. -/
def FRotator.Add (a b : FRotator) : FRotator := ⟨a.Pitch + b.Pitch, a.Yaw + b.Yaw, a.Roll + b.Roll⟩

/-- The engine's quaternion. -/
structure FQuat where
  X : ℚ
  Y : ℚ
  Z : ℚ
  W : ℚ
  deriving DecidableEq

/-- The engine's component-wise difference of quaternions, `operator-` of `FQuat`. -/
def FQuat.Sub (a b : FQuat) : FQuat := ⟨a.X - b.X, a.Y - b.Y, a.Z - b.Z, a.W - b.W⟩

/-- The engine's product of a quaternion with a scalar, `operator*` of `FQuat`. -/
def FQuat.Scale (a : FQuat) (Scale : ℚ) : FQuat :=
  ⟨a.X * Scale, a.Y * Scale, a.Z * Scale, a.W * Scale⟩

/-- The engine's transform, reduced to what `GetLocation()` and `GetRotation()`
return. -/
structure FTransform where
  Rotation : FQuat
  Location : FVector
  deriving DecidableEq

/-! ### `FMath` (`UnrealMathUtility.h`) -/

/-- The engine constant `UE_SMALL_NUMBER`, `1.e-8f`. -/
def FMath.SmallNumber : ℚ := 1 / 100000000

/-- The engine function `FMath::Clamp(X, Min, Max)`. -/
def FMath.Clamp (X Min Max : ℚ) : ℚ :=
  if X < Min then Min else if X < Max then X else Max

/-- The engine function `FMath::Lerp(A, B, Alpha)` on scalars: `A + Alpha * (B - A)`. -/
def FMath.Lerp (A B Alpha : ℚ) : ℚ := A + Alpha * (B - A)

/-- The engine function `FMath::Lerp(A, B, Alpha)` on vectors: `A + Alpha * (B - A)`. -/
def FMath.LerpVector (A B : FVector) (Alpha : ℚ) : FVector := A.Add ((B.Sub A).Scale Alpha)

/-- The engine function `FMath::IsNearlyZero(Value)` with its default tolerance. -/
def FMath.IsNearlyZero (Value : ℚ) : Bool := decide (|Value| ≤ FMath.SmallNumber)

/-- The engine function `FMath::GetRangePct(MinValue, MaxValue, Value)`: where
`Value` lies in the range as a fraction, and for a range that is a point
whether `Value` is at or beyond it. -/
def FMath.GetRangePct (MinValue MaxValue Value : ℚ) : ℚ :=
  let Divisor : ℚ := MaxValue - MinValue
  if FMath.IsNearlyZero Divisor then
    if Value ≥ MaxValue then 1 else 0
  else
    (Value - MinValue) / Divisor

/-- The engine function `FMath::GetRangeValue(Range, Pct)`. -/
def FMath.GetRangeValue (RangeX RangeY Pct : ℚ) : ℚ := FMath.Lerp RangeX RangeY Pct

/-- The engine function `FMath::GetMappedRangeValueClamped(InputRange,
OutputRange, Value)`, with the two components of each range as arguments. -/
def FMath.GetMappedRangeValueClamped (InputX InputY OutputX OutputY Value : ℚ) : ℚ :=
  let ClampedPct : ℚ := FMath.Clamp (FMath.GetRangePct InputX InputY Value) 0 1
  FMath.GetRangeValue OutputX OutputY ClampedPct

/-- The engine function `FMath::FInterpTo(Current, Target, DeltaTime,
InterpSpeed)`. -/
def FMath.FInterpTo (Current Target DeltaTime InterpSpeed : ℚ) : ℚ :=
  if InterpSpeed ≤ 0 then
    Target
  else
    let Dist : ℚ := Target - Current
    if Dist * Dist < FMath.SmallNumber then
      Target
    else
      let DeltaMove : ℚ := Dist * FMath.Clamp (DeltaTime * InterpSpeed) 0 1
      Current + DeltaMove

/-- The engine function `FMath::IsNearlyEqual(A, B, ErrorTolerance)`. -/
def FMath.IsNearlyEqual (A B ErrorTolerance : ℚ) : Bool := decide (|A - B| ≤ ErrorTolerance)

/-- A controller as seen from its pawn and from the camera: the control
rotation, and the value `GetHorizontalRotationInput()` returns. -/
structure AController where
  ControlRotation : FRotator
  HorizontalRotationInput : ℚ
  deriving DecidableEq

/-- The state of the engine class `UCameraComponent` that the game code reads
or writes: world location and rotation, field of view, and the three
depth-of-field entries of `PostProcessSettings`. -/
structure UCameraComponent where
  WorldLocation : FVector
  WorldRotation : FRotator
  FieldOfView : ℚ
  DepthOfFieldSkyFocusDistance : ℚ
  DepthOfFieldDepthBlurAmount : ℚ
  DepthOfFieldDepthBlurRadius : ℚ
  deriving DecidableEq

/-- The engine's movement modes of a character movement component. -/
inductive EMovementMode where
  | MOVE_None
  | MOVE_Walking
  | MOVE_NavWalking
  | MOVE_Falling
  | MOVE_Swimming
  | MOVE_Flying
  | MOVE_Custom
  deriving DecidableEq

/-- A pawn as seen from its movement component: `GetController()` is the
identity of the controller possessing it, `none` for `nullptr`. -/
structure APawn where
  Controller : Option Nat
  deriving DecidableEq

/-- The state of the engine base class `UCharacterMovementComponent` that the
game code reads or writes. -/
structure UCharacterMovementComponent where
  Velocity : FVector
  MovementMode : EMovementMode
  PawnOwner : Option APawn
  bIsCrouched : Bool
  MaxWalkSpeed : ℚ
  JumpZVelocity : ℚ
  deriving DecidableEq

/-- The engine query `UCharacterMovementComponent::IsMovingOnGround()`: the
movement mode is walking or navmesh walking. -/
def UCharacterMovementComponent.IsMovingOnGround (m : UCharacterMovementComponent) : Bool :=
  decide (m.MovementMode = EMovementMode.MOVE_Walking) ||
    decide (m.MovementMode = EMovementMode.MOVE_NavWalking)

/-- The engine query `UCharacterMovementComponent::IsFalling()`: the movement
mode is falling. -/
def UCharacterMovementComponent.IsFalling (m : UCharacterMovementComponent) : Bool :=
  decide (m.MovementMode = EMovementMode.MOVE_Falling)

/-- The engine query `UCharacterMovementComponent::IsCrouching()`. -/
def UCharacterMovementComponent.IsCrouching (m : UCharacterMovementComponent) : Bool :=
  m.bIsCrouched

/-- The engine function `UMovementComponent::StopMovementImmediately()`: the
velocity is zeroed. -/
def UCharacterMovementComponent.StopMovementImmediately
    (m : UCharacterMovementComponent) : UCharacterMovementComponent :=
  { m with Velocity := FVector.ZeroVector }

/-! ## PlayerCharacterMovementComponent -/

/-- The enumeration `EPlayerGroundMovementType`. -/
inductive EPlayerGroundMovementType where
  | Idle
  | Walking
  | Sprinting
  deriving DecidableEq

/-- The enumeration `EPlayerLandingType`. -/
inductive EPlayerLandingType where
  | Soft
  | Hard
  | Heavy
  deriving DecidableEq

/-- The enumeration `EPlayerLocomotionEvent`. -/
inductive EPlayerLocomotionEvent where
  | Jump
  | Fall
  | CrouchStart
  | CrouchEnd
  | SprintStart
  | SprintEnd
  deriving DecidableEq

/-- The class `UPlayerCharacterMovementComponent`: the engine base state, the two private
flags, and the broadcasts made so far on the three delegates. -/
structure UPlayerCharacterMovementComponent extends UCharacterMovementComponent where
  IsSprinting : Bool
  IsJumping : Bool
  OnLocomotionEvent : List EPlayerLocomotionEvent
  OnJump : Nat
  OnLanding : List EPlayerLandingType
  deriving DecidableEq

namespace UPlayerCharacterMovementComponent

/-- The getter `GetIsSprinting()`. -/
def GetIsSprinting (s : UPlayerCharacterMovementComponent) : Bool := s.IsSprinting

/-- The getter `GetIsJumping()`. -/
def GetIsJumping (s : UPlayerCharacterMovementComponent) : Bool := s.IsJumping

/-- The override `ProcessLanded(Hit, remainingTime, Iterations)`. The landing type is chosen
from `Velocity.Z` and broadcast on `OnLanding`; then the engine's
`Super::ProcessLanded`, given as `Super`, runs on the base state. -/
def ProcessLanded (Super : UCharacterMovementComponent → UCharacterMovementComponent)
    (s : UPlayerCharacterMovementComponent) : UPlayerCharacterMovementComponent :=
  let s1 : UPlayerCharacterMovementComponent :=
    if s.Velocity.Z < -1000 then
      if s.Velocity.Z < -1300 then
        { s with OnLanding := s.OnLanding ++ [EPlayerLandingType.Heavy] }
      else
        { s with OnLanding := s.OnLanding ++ [EPlayerLandingType.Hard] }
    else
      { s with OnLanding := s.OnLanding ++ [EPlayerLandingType.Soft] }
  { s1 with toUCharacterMovementComponent := Super s1.toUCharacterMovementComponent }

/-- The function `GetGroundMovementType()`. -/
def GetGroundMovementType (s : UPlayerCharacterMovementComponent) : EPlayerGroundMovementType :=
  if s.IsSprinting then
    EPlayerGroundMovementType.Sprinting
  else if s.IsMovingOnGround && decide (s.Velocity.SquaredLength ≥ 25) then
    EPlayerGroundMovementType.Walking
  else
    EPlayerGroundMovementType.Idle

/-- The function `SetIsSprinting(Value, Controller)`; `Controller` is the identity of the
calling player controller, `none` for `nullptr`. -/
def SetIsSprinting (Value : Bool) (Controller : Option Nat)
    (s : UPlayerCharacterMovementComponent) : UPlayerCharacterMovementComponent :=
  match s.PawnOwner with
  | none => s
  | some Pawn =>
    if s.IsSprinting = Value then
      s
    else
      let s1 : UPlayerCharacterMovementComponent :=
        if Pawn.Controller = Controller then { s with IsSprinting := Value } else s
      if Value then
        { s1 with OnLocomotionEvent := s1.OnLocomotionEvent ++ [EPlayerLocomotionEvent.SprintStart] }
      else
        { s1 with OnLocomotionEvent := s1.OnLocomotionEvent ++ [EPlayerLocomotionEvent.SprintEnd] }

end UPlayerCharacterMovementComponent

/-! ## PlayerCharacter -/

/-- Modelled from the spec: `UPlayerSubsystem` (`Core/PlayerSubsystem.h`) is not
among the sources. It holds the movement input lock and the rotation input lock
of the player. -/
structure UPlayerSubsystem where
  PlayerMovementInputLock : Bool
  PlayerRotationInputLock : Bool
  deriving DecidableEq

/-- Modelled from the spec: `UPlayerSubsystem::SetPlayerMovementInputLock`, whose
body is not among the sources; it sets the movement input lock to `Value`. -/
def UPlayerSubsystem.SetPlayerMovementInputLock (Value : Bool) (Subsystem : UPlayerSubsystem) :
    UPlayerSubsystem :=
  { Subsystem with PlayerMovementInputLock := Value }

/-- Modelled from the spec: `UPlayerSubsystem::SetPlayerRotationInputLock`, whose
body is not among the sources; it sets the rotation input lock to `Value`. -/
def UPlayerSubsystem.SetPlayerRotationInputLock (Value : Bool) (Subsystem : UPlayerSubsystem) :
    UPlayerSubsystem :=
  { Subsystem with PlayerRotationInputLock := Value }

/-- What the timer manager holds for a timer that has been set: the rate in
seconds and the loop flag passed to `SetTimer`. -/
structure FTimerData where
  Rate : ℚ
  bLoop : Bool
  deriving DecidableEq

/-- The part of `UWorld` the character touches: the player subsystem
(`GetSubsystem<UPlayerSubsystem>()`, `none` for `nullptr`) and what the timer
manager holds for the handle `FallStunTimer` (`none` while it is not set). -/
structure UWorld where
  PlayerSubsystem : Option UPlayerSubsystem
  FallStunTimer : Option FTimerData
  deriving DecidableEq

/-- Modelled from the spec: `UPlayerCharacterConfiguration`
(`PlayerCharacterConfiguration.h`) is not among the sources; these are the
settings the controller reads from it. -/
structure UPlayerCharacterConfiguration where
  IsJumpingEnabled : Bool
  IsSprintingEnabled : Bool
  IsCrouchingEnabled : Bool
  EnableCrouchToggle : Bool
  WalkSpeed : ℚ
  SprintSpeed : ℚ
  JumpVelocity : ℚ
  RotationRate : ℚ
  deriving DecidableEq

/-- The class `APlayerCharacter`. `World` is `GetWorld()` and `PlayerCharacterController`
the identity of the possessing player character controller, both `none` for
`nullptr`; `CharacterMovement` is the object behind `GetCharacterMovement()`,
which the landing handler dereferences unconditionally.
`HasPlayerCharacterMovement` tells whether the pointer `PlayerCharacterMovement`
to that object has been set; `Controller` is `GetController()` and
`CharacterConfiguration` the configuration asset, both `none` for `nullptr`;
`Camera` is the camera component and `HeadSocketTransform` what
`GetMesh()->GetSocketTransform("head", RTS_Actor)` returns. -/
structure APlayerCharacter where
  World : Option UWorld
  PlayerCharacterController : Option Nat
  CharacterMovement : UPlayerCharacterMovementComponent
  ActorLocation : FVector
  CapsuleHalfHeight : ℚ
  IsTurningInPlace : Bool
  YawDelta : ℚ
  ActorRotation : FRotator
  Controller : Option AController
  HasPlayerCharacterMovement : Bool
  CharacterConfiguration : Option UPlayerCharacterConfiguration
  Camera : UCameraComponent
  HeadSocketTransform : FTransform
  deriving DecidableEq

namespace APlayerCharacter

/-- The function `CalculateTurnInPlaceRotation(YawDelta, DeltaTime, Factor, Clamp)`. -/
def CalculateTurnInPlaceRotation (YawDelta DeltaTime Factor Clamp : ℚ) : ℚ :=
  let Rotation : ℚ := YawDelta * Factor * DeltaTime
  if |YawDelta| ≥ Clamp then
    let RotationOvershoot : ℚ := |YawDelta| - Clamp
    let RotationOvershoot : ℚ := if YawDelta ≥ 0 then RotationOvershoot else -RotationOvershoot
    Rotation + RotationOvershoot
  else
    Rotation

/-- The getter `GetIsTurningInPlace()`. -/
def GetIsTurningInPlace (s : APlayerCharacter) : Bool := s.IsTurningInPlace

/-- The getter `GetPlayerCharacterMovement()`: the movement component when the
pointer `PlayerCharacterMovement` has been set, `none` for `nullptr`. -/
def GetPlayerCharacterMovement (s : APlayerCharacter) : Option UPlayerCharacterMovementComponent :=
  if s.HasPlayerCharacterMovement then some s.CharacterMovement else none

/-- The engine function `APawn::GetControlRotation()`: the control rotation of
the controller, the zero rotator without one. -/
def GetControlRotation (s : APlayerCharacter) : FRotator :=
  match s.Controller with
  | some Controller => Controller.ControlRotation
  | none => FRotator.ZeroRotator

/-- The engine function `SetActorRotation(NewRotation)`. -/
def SetActorRotation (NewRotation : FRotator) (s : APlayerCharacter) : APlayerCharacter :=
  { s with ActorRotation := NewRotation }

/-- The engine function `AddActorWorldRotation(DeltaRotation)` for a rotation
about the vertical axis only, which is how `UpdateRotation` calls it: the yaw
of the actor grows by `DeltaYaw`. -/
def AddActorWorldRotation (DeltaYaw : ℚ) (s : APlayerCharacter) : APlayerCharacter :=
  { s with ActorRotation := { s.ActorRotation with Yaw := s.ActorRotation.Yaw + DeltaYaw } }

/-- The `else` branch of `UpdateRotation`, taken while the character neither
walks nor falls: turn in place, then update `IsTurningInPlace`. -/
def UpdateRotationStationary (DeltaTime : ℚ) (s : APlayerCharacter) : APlayerCharacter :=
  let YawDeltaThreshold : ℚ := 30
  let s1 : APlayerCharacter :=
    if s.IsTurningInPlace then
      AddActorWorldRotation (CalculateTurnInPlaceRotation s.YawDelta DeltaTime 4 45) s
    else
      s
  if FMath.IsNearlyEqual s1.YawDelta 0 (1 / 2) then
    { s1 with IsTurningInPlace := false }
  else if |s1.YawDelta| > YawDeltaThreshold then
    { s1 with IsTurningInPlace := true }
  else
    s1

/-- The function `UpdateRotation(DeltaTime)`. `MovementComponent` is the pointer
that `GetCharacterMovement()` yields at the call, `none` for `nullptr`; the
velocity of the actor is the velocity of that component. -/
def UpdateRotation (MovementComponent : Option UCharacterMovementComponent) (DeltaTime : ℚ)
    (s : APlayerCharacter) : APlayerCharacter :=
  match MovementComponent with
  | some Movement =>
    if (Movement.IsMovingOnGround && decide (|Movement.Velocity.X| > 1)) || Movement.IsFalling then
      let s1 : APlayerCharacter :=
        match s.Controller with
        | some Controller => SetActorRotation ⟨0, Controller.ControlRotation.Yaw, 0⟩ s
        | none => s
      { s1 with IsTurningInPlace := false }
    else
      UpdateRotationStationary DeltaTime s
  | none => UpdateRotationStationary DeltaTime s

/-- The `switch` at the head of `HandleLanding`: `none` for the early `return`
of a soft landing, otherwise the stun duration in seconds. -/
def StunDuration : EPlayerLandingType → Option ℚ
  | EPlayerLandingType.Soft => none
  | EPlayerLandingType.Hard => some (185 / 100)
  | EPlayerLandingType.Heavy => some (45 / 10)

/-- The function `HandleLanding(Value)`, the callback of the `OnLanding`
delegate of the movement component. -/
def HandleLanding (Value : EPlayerLandingType) (s : APlayerCharacter) : APlayerCharacter :=
  match StunDuration Value with
  | none => s
  | some Duration =>
    let s1 : APlayerCharacter :=
      match s.World with
      | some World =>
        let World1 : UWorld :=
          match World.PlayerSubsystem with
          | some Subsystem =>
            { World with
              PlayerSubsystem :=
                some ((Subsystem.SetPlayerMovementInputLock true).SetPlayerRotationInputLock true) }
          | none => World
        { s with World := some { World1 with FallStunTimer := some ⟨Duration, false⟩ } }
      | none => s
    { s1 with
      CharacterMovement :=
        { s1.CharacterMovement with
          toUCharacterMovementComponent :=
            s1.CharacterMovement.toUCharacterMovementComponent.StopMovementImmediately } }

/-- The function `HandleLandingEnd()`, the callback of the fall-stun timer. -/
def HandleLandingEnd (s : APlayerCharacter) : APlayerCharacter :=
  match s.PlayerCharacterController with
  | some _ =>
    match s.World with
    | some World =>
      match World.PlayerSubsystem with
      | some Subsystem =>
        { s with
          World :=
            some { World with
              PlayerSubsystem :=
                some ((Subsystem.SetPlayerMovementInputLock false).SetPlayerRotationInputLock
                  false) } }
      | none => s
    | none => s
  | none => s

/-- The movement input lock held by the player subsystem of the character's
world, when both exist. -/
def MovementInputLock (s : APlayerCharacter) : Option Bool :=
  match s.World with
  | some World =>
    match World.PlayerSubsystem with
    | some Subsystem => some Subsystem.PlayerMovementInputLock
    | none => none
  | none => none

/-- The rotation input lock held by the player subsystem of the character's
world, when both exist. -/
def RotationInputLock (s : APlayerCharacter) : Option Bool :=
  match s.World with
  | some World =>
    match World.PlayerSubsystem with
    | some Subsystem => some Subsystem.PlayerRotationInputLock
    | none => none
  | none => none

/-- What the timer manager of the character's world holds for `FallStunTimer`. -/
def FallStunTimer (s : APlayerCharacter) : Option FTimerData :=
  match s.World with
  | some World => World.FallStunTimer
  | none => none

end APlayerCharacter

/-! ## PlayerCharacterController -/

/-- The engine's hit record, reduced to the distance from the trace start. -/
structure FHitResult where
  Distance : ℚ
  deriving DecidableEq

/-- The input axes bound in `SetupInputComponent`. -/
inductive EInputAxis where
  | HorizontalRotation
  | VerticalRotation
  | MoveLongitudinal
  | MoveLateral
  deriving DecidableEq

/-- The class `APlayerCharacterController`. `PlayerCharacter` is the possessed pawn
(`GetPawn()`, `GetCharacter()`), which the queries below dereference
unconditionally. `LineTraceSingleByChannel Start End` is the answer of the
pawn's world to a visibility line trace from `Start` to `End`: the hit, or
`none` when nothing is hit. `GetInputAxisValue` is the current value of each
input axis, and `UniqueID` the identity of this controller, under which the
pawn and the movement component know it. -/
structure APlayerCharacterController where
  CharacterConfiguration : UPlayerCharacterConfiguration
  PlayerCharacter : APlayerCharacter
  LineTraceSingleByChannel : FVector → FVector → Option FHitResult
  GetInputAxisValue : EInputAxis → ℚ
  IsSprintPending : Bool
  IsCrouchPending : Bool
  UniqueID : Nat

namespace APlayerCharacterController

/-- The function `GetClearanceAbovePawn()`. -/
def GetClearanceAbovePawn (c : APlayerCharacterController) : ℚ :=
  let Start : FVector := c.PlayerCharacter.ActorLocation
  let End : FVector := ⟨Start.X + 0, Start.Y + 0, Start.Z + 500⟩
  match c.LineTraceSingleByChannel Start End with
  | some HitResult => HitResult.Distance - c.PlayerCharacter.CapsuleHalfHeight
  | none => -1

/-- The function `CanJump()`. -/
def CanJump (c : APlayerCharacterController) : Bool :=
  let RequiredClearance : ℚ := 60
  let Clearance : ℚ := GetClearanceAbovePawn c
  (decide (Clearance > RequiredClearance) || decide (Clearance = -1)) &&
    c.CharacterConfiguration.IsJumpingEnabled &&
    !c.PlayerCharacter.CharacterMovement.IsFalling

/-- The function `CanSprint()`. -/
def CanSprint (c : APlayerCharacterController) : Bool :=
  c.CharacterConfiguration.IsSprintingEnabled &&
    c.PlayerCharacter.CharacterMovement.IsMovingOnGround &&
    decide (c.GetInputAxisValue EInputAxis.MoveLongitudinal > 1 / 2) &&
    decide (|c.GetInputAxisValue EInputAxis.MoveLateral| ≤
      c.GetInputAxisValue EInputAxis.MoveLongitudinal)

/-- The function `CanCrouch()`. -/
def CanCrouch (c : APlayerCharacterController) : Bool :=
  c.CharacterConfiguration.IsCrouchingEnabled

/-- The function `CanStandUp()`. In the source the condition is written
`Clearance > RequiredClearance || Clearance == -1.f && IsCrouching()`, where
`&&` binds tighter than `||`. -/
def CanStandUp (c : APlayerCharacterController) : Bool :=
  let RequiredClearance : ℚ := 100
  let Clearance : ℚ := GetClearanceAbovePawn c
  decide (Clearance > RequiredClearance) ||
    (decide (Clearance = -1) && c.PlayerCharacter.CharacterMovement.IsCrouching)

/-- The function `StartSprinting()`. -/
def StartSprinting (c : APlayerCharacterController) : APlayerCharacterController :=
  let Character : APlayerCharacter :=
    { c.PlayerCharacter with
      CharacterMovement :=
        { c.PlayerCharacter.CharacterMovement with
          MaxWalkSpeed := c.CharacterConfiguration.SprintSpeed } }
  match Character.GetPlayerCharacterMovement with
  | some PlayerCharacterMovement =>
    { c with
      PlayerCharacter :=
        { Character with
          CharacterMovement := PlayerCharacterMovement.SetIsSprinting true (some c.UniqueID) } }
  | none => { c with PlayerCharacter := Character }

/-- The function `StopSprinting()`. -/
def StopSprinting (c : APlayerCharacterController) : APlayerCharacterController :=
  let Character : APlayerCharacter :=
    { c.PlayerCharacter with
      CharacterMovement :=
        { c.PlayerCharacter.CharacterMovement with
          MaxWalkSpeed := c.CharacterConfiguration.WalkSpeed } }
  match Character.GetPlayerCharacterMovement with
  | some PlayerCharacterMovement =>
    { c with
      PlayerCharacter :=
        { Character with
          CharacterMovement := PlayerCharacterMovement.SetIsSprinting false (some c.UniqueID) } }
  | none => { c with PlayerCharacter := Character }

/-- The function `StartCrouching()`: it calls `GetCharacter()->Crouch()`, the
engine's `ACharacter::Crouch`, given as `Crouch`. -/
def StartCrouching (Crouch : APlayerCharacter → APlayerCharacter)
    (c : APlayerCharacterController) : APlayerCharacterController :=
  { c with PlayerCharacter := Crouch c.PlayerCharacter }

/-- The function `StopCrouching()`, whose body in the source is empty. -/
def StopCrouching (c : APlayerCharacterController) : APlayerCharacterController := c

/-- The test `GetPlayerCharacterMovement() && GetPlayerCharacterMovement()->GetIsSprinting()`
that the controller makes on its character. -/
def IsCharacterSprinting (c : APlayerCharacterController) : Bool :=
  match c.PlayerCharacter.GetPlayerCharacterMovement with
  | some PlayerCharacterMovement => PlayerCharacterMovement.GetIsSprinting
  | none => false

/-- The test `GetCharacter()->GetMovementComponent()->IsCrouching()` that the
controller makes on its character. -/
def IsCharacterCrouching (c : APlayerCharacterController) : Bool :=
  c.PlayerCharacter.CharacterMovement.IsCrouching

/-- The function `UpdatePendingActions()`; `Crouch` is the engine's
`ACharacter::Crouch`. -/
def UpdatePendingActions (Crouch : APlayerCharacter → APlayerCharacter)
    (c : APlayerCharacterController) : APlayerCharacterController :=
  let c1 : APlayerCharacterController :=
    if c.IsSprintPending && c.PlayerCharacter.GetPlayerCharacterMovement.isSome &&
        !IsCharacterSprinting c && CanSprint c then
      if !IsCharacterCrouching c then
        StartSprinting c
      else if IsCharacterCrouching c && CanStandUp c then
        { StartSprinting (StopCrouching c) with IsCrouchPending := false }
      else
        c
    else
      c
  if c1.IsCrouchPending && !IsCharacterCrouching c1 && CanCrouch c1 then
    let c2 : APlayerCharacterController :=
      if IsCharacterSprinting c1 then
        { StopSprinting c1 with IsSprintPending := false }
      else
        c1
    StartCrouching Crouch c2
  else
    c1

end APlayerCharacterController

/-! ## PlayerCameraController -/

/-- Modelled from the spec: `FPlayerCameraConfigurationData`
(`PlayerCharacterConfiguration.h`) is not among the sources; these are the
settings the camera controller reads from it. -/
structure FPlayerCameraConfigurationData where
  IsDynamicFOVEnabled : Bool
  IsDynamicDOFEnabled : Bool
  IsCameraSwayEnabled : Bool
  IsCentripetalRotationEnabled : Bool
  CameraOffset : FVector
  DefaultFOV : ℚ
  SprintFOV : ℚ
  CameraShakeIntensity : ℚ
  VelocityCentripetalRotation : ℚ
  RotationCentripetalRotation : ℚ
  MaxCentripetalRotation : ℚ
  MinimumFocalDistance : ℚ
  MaximumFocalDistance : ℚ
  MacroBlurFocus : ℚ
  LongShotBlurFocus : ℚ
  MacroBlurAmount : ℚ
  LongShotBlurAmount : ℚ
  DynamicDofSpeed : ℚ
  deriving DecidableEq

/-- What the engine answers to the camera controller during one tick: the
cosine, the rotation of a vector by a rotator, the inverse of the actor
transform of an actor with a given rotation on a direction, the rotator of a
quaternion, `FMath::RInterpTo`, the forward vector of a rotation, the length of
a vector, the world time and frame time in seconds, the location of the hit of
a visibility line trace (`none` when nothing is hit), and the
default-constructed character configuration data. -/
structure UEngine where
  Cos : ℚ → ℚ
  RotateVector : FRotator → FVector → FVector
  InverseTransformVector : FRotator → FVector → FVector
  Rotator : FQuat → FRotator
  RInterpTo : FRotator → FRotator → ℚ → ℚ → FRotator
  GetForwardVector : FRotator → FVector
  Size : FVector → ℚ
  TimeSeconds : ℚ
  DeltaSeconds : ℚ
  LineTraceSingleByChannel : FVector → FVector → Option FVector
  DefaultConfiguration : UPlayerCharacterConfiguration

/-- The class `UPlayerCameraController`. `PlayerCharacter` is the owning
character and `PlayerCharacterController` its controller, both `none` for
`nullptr`; the camera is the one of the character. -/
structure UPlayerCameraController where
  PlayerCharacter : Option APlayerCharacter
  PlayerCharacterController : Option AController
  CameraConfigurationData : FPlayerCameraConfigurationData
  HeadSocketTransform : FTransform
  InterpolatedHeadSocketRotation : FRotator
  CameraShakeRoll : ℚ
  CameraLeanRoll : ℚ
  deriving DecidableEq

namespace UPlayerCameraController

/-- The local `PitchAlpha` of `UpdateCameraLocation`: the pitch of the camera
mapped from the range (-30, -55) to the range (0, 1), clamped. -/
def PitchAlpha (Character : APlayerCharacter) : ℚ :=
  FMath.GetMappedRangeValueClamped (-30) (-55) 0 1 Character.Camera.WorldRotation.Pitch

/-- The local `SocketLocation` of `UpdateCameraLocation`: half the vertical
offset of the head socket from its default location. -/
def SocketLocation (Character : APlayerCharacter) (cc : UPlayerCameraController) : FVector :=
  ⟨0, 0, (Character.HeadSocketTransform.Location.Sub cc.HeadSocketTransform.Location).Z * (1 / 2)⟩

/-- The local `UprightCameraLocation` of `UpdateCameraLocation`; the socket
location is scaled by `!GetIsTurningInPlace()`, that is by 0 or 1. -/
def UprightCameraLocation (Character : APlayerCharacter) (cc : UPlayerCameraController) :
    FVector :=
  cc.CameraConfigurationData.CameraOffset.Add
    ((SocketLocation Character cc).Scale (if !Character.GetIsTurningInPlace then 1 else 0))

/-- The local `DownwardCameraLocation` of `UpdateCameraLocation`; the velocity of
the actor, `GetVelocity()`, is the velocity of its movement component. -/
def DownwardCameraLocation (Character : APlayerCharacter) (cc : UPlayerCameraController) :
    FVector :=
  (Character.HeadSocketTransform.Location.Add
      ⟨cc.CameraConfigurationData.CameraOffset.X * (625 / 1000), 0, 0⟩).Sub
    ⟨0, 0, Character.CharacterMovement.Velocity.X * (2 / 100)⟩

/-- The local `Result` of `UpdateCameraLocation` at the point where the source
goes on to rotate it with the control rotation. -/
def CameraLocationResult (Character : APlayerCharacter) (cc : UPlayerCameraController) : FVector :=
  if PitchAlpha Character = 0 then
    cc.CameraConfigurationData.CameraOffset.Add
      ((SocketLocation Character cc).Scale (if !Character.GetIsTurningInPlace then 1 else 0))
  else
    FMath.LerpVector (UprightCameraLocation Character cc) (DownwardCameraLocation Character cc)
      (PitchAlpha Character)

/-- The function `UpdateCameraLocation()`; it returns the character with the
camera moved. -/
def UpdateCameraLocation (Engine : UEngine) (Character : APlayerCharacter)
    (Controller : AController) (cc : UPlayerCameraController) : APlayerCharacter :=
  let Result : FVector := CameraLocationResult Character cc
  let ControlRotation : FRotator := ⟨0, Controller.ControlRotation.Yaw, 0⟩
  let Result : FVector := Engine.RotateVector ControlRotation Result
  let Result : FVector := Result.Add Character.ActorLocation
  { Character with Camera := { Character.Camera with WorldLocation := Result } }

/-- The function `GetCameraSwayRotation()`; it returns the rotation and the
controller with the new `CameraShakeRoll`. -/
def GetCameraSwayRotation (Engine : UEngine) (Character : APlayerCharacter)
    (cc : UPlayerCameraController) : FRotator × UPlayerCameraController :=
  match Character.GetPlayerCharacterMovement with
  | none => (FRotator.ZeroRotator, cc)
  | some PlayerCharacterMovement =>
    let IntensityMultiplier : ℚ :=
      match PlayerCharacterMovement.GetGroundMovementType with
      | EPlayerGroundMovementType.Idle => 1 / 10
      | EPlayerGroundMovementType.Walking => 3 / 10
      | EPlayerGroundMovementType.Sprinting => 165 / 100
    let Deviation : ℚ :=
      FMath.GetMappedRangeValueClamped (-1) 1 (75 / 100) (15 / 10)
        (Engine.Cos (Engine.TimeSeconds * (24 / 10)))
    let TargetRollOffset : ℚ :=
      Engine.Cos (Engine.TimeSeconds * Deviation) * IntensityMultiplier * Deviation *
        cc.CameraConfigurationData.CameraShakeIntensity
    let Roll : ℚ := FMath.FInterpTo cc.CameraShakeRoll TargetRollOffset Engine.DeltaSeconds 3
    (⟨0, 0, Roll⟩, { cc with CameraShakeRoll := Roll })

/-- The function `GetCameraCentripetalRotation()`; it returns the rotation and
the controller with the new `CameraLeanRoll`. -/
def GetCameraCentripetalRotation (Engine : UEngine) (Character : APlayerCharacter)
    (Controller : AController) (cc : UPlayerCameraController) :
    FRotator × UPlayerCameraController :=
  let Sprinting : Bool :=
    match Character.GetPlayerCharacterMovement with
    | some PlayerCharacterMovement => PlayerCharacterMovement.GetIsSprinting
    | none => false
  let TargetRoll : ℚ :=
    if Sprinting then
      let LateralVelocityMultiplier : ℚ :=
        (2353 / 1000000) * cc.CameraConfigurationData.VelocityCentripetalRotation
      let WorldVelocity : FVector := Character.CharacterMovement.Velocity
      let LocalVelocity : FVector :=
        Engine.InverseTransformVector Character.ActorRotation WorldVelocity
      let LateralVelocityRoll : ℚ := LocalVelocity.Y * LateralVelocityMultiplier
      let HorizontalRotationRoll : ℚ :=
        FMath.Clamp
          (Controller.HorizontalRotationInput *
            cc.CameraConfigurationData.RotationCentripetalRotation)
          (-cc.CameraConfigurationData.MaxCentripetalRotation)
          cc.CameraConfigurationData.MaxCentripetalRotation
      LateralVelocityRoll + HorizontalRotationRoll
    else
      0
  let Roll : ℚ := FMath.FInterpTo cc.CameraLeanRoll TargetRoll Engine.DeltaSeconds 4
  (⟨0, 0, Roll⟩, { cc with CameraLeanRoll := Roll })

/-- The function `GetScaledHeadSocketDeltaRotation()`; it returns the rotation
and the controller with the new `InterpolatedHeadSocketRotation`. The world
tested before interpolating is the world of the character. -/
def GetScaledHeadSocketDeltaRotation (Engine : UEngine) (Character : APlayerCharacter)
    (cc : UPlayerCameraController) : FRotator × UPlayerCameraController :=
  match Character.GetPlayerCharacterMovement with
  | none => (FRotator.ZeroRotator, cc)
  | some PlayerCharacterMovement =>
    let IntensityMultiplier : ℚ :=
      if !Character.CharacterMovement.IsFalling then
        match PlayerCharacterMovement.GetGroundMovementType with
        | EPlayerGroundMovementType.Sprinting => 125 / 100
        | _ => 1 / 2
      else
        0
    let TargetHeadSocketRotation : FRotator :=
      Engine.Rotator
        ((Character.HeadSocketTransform.Rotation.Sub cc.HeadSocketTransform.Rotation).Scale
          IntensityMultiplier)
    let TargetHeadSocketRotation : FRotator :=
      ⟨TargetHeadSocketRotation.Pitch, TargetHeadSocketRotation.Yaw * 0,
        TargetHeadSocketRotation.Roll * (15 / 10)⟩
    let cc1 : UPlayerCameraController :=
      match Character.World with
      | some _ =>
        { cc with
          InterpolatedHeadSocketRotation :=
            Engine.RInterpTo cc.InterpolatedHeadSocketRotation TargetHeadSocketRotation
              Engine.DeltaSeconds 4 }
      | none => cc
    (cc1.InterpolatedHeadSocketRotation, cc1)

/-- The function `UpdateCameraRotation()`; it returns the character with the
camera turned and the controller with its new interpolation state. -/
def UpdateCameraRotation (Engine : UEngine) (Character : APlayerCharacter)
    (Controller : AController) (cc : UPlayerCameraController) :
    APlayerCharacter × UPlayerCameraController :=
  let Sway : FRotator × UPlayerCameraController :=
    if cc.CameraConfigurationData.IsCameraSwayEnabled then
      GetCameraSwayRotation Engine Character cc
    else
      (FRotator.ZeroRotator, cc)
  let CentripetalRotation : FRotator × UPlayerCameraController :=
    if cc.CameraConfigurationData.IsCentripetalRotationEnabled then
      GetCameraCentripetalRotation Engine Character Controller Sway.2
    else
      (FRotator.ZeroRotator, Sway.2)
  let SocketRotation : FRotator × UPlayerCameraController :=
    if !Character.GetIsTurningInPlace then
      GetScaledHeadSocketDeltaRotation Engine Character CentripetalRotation.2
    else
      (FRotator.ZeroRotator, CentripetalRotation.2)
  ({ Character with
      Camera :=
        { Character.Camera with
          WorldRotation :=
            ((Sway.1.Add CentripetalRotation.1).Add SocketRotation.1).Add
              Character.GetControlRotation } },
    SocketRotation.2)

/-- The local `TargetFOV` of `UpdateCameraFieldOfView` at the point where the
source interpolates the field of view towards it; `LocalVelocityX` is the
forward component of the velocity in the frame of the actor. -/
def TargetFOV (Configuration : UPlayerCharacterConfiguration)
    (CameraConfigurationData : FPlayerCameraConfigurationData) (LocalVelocityX : ℚ) : ℚ :=
  if LocalVelocityX > Configuration.WalkSpeed * (11 / 10) then
    FMath.GetMappedRangeValueClamped (Configuration.WalkSpeed * (11 / 10))
      Configuration.SprintSpeed CameraConfigurationData.DefaultFOV
      CameraConfigurationData.SprintFOV LocalVelocityX
  else
    CameraConfigurationData.DefaultFOV

/-- The function `UpdateCameraFieldOfView()`; it returns the character with the
new field of view of the camera. -/
def UpdateCameraFieldOfView (Engine : UEngine) (Character : APlayerCharacter)
    (cc : UPlayerCameraController) : APlayerCharacter :=
  let Configuration : UPlayerCharacterConfiguration :=
    match Character.CharacterConfiguration with
    | some CharacterConfiguration => CharacterConfiguration
    | none => Engine.DefaultConfiguration
  let WorldVelocity : FVector := Character.CharacterMovement.Velocity
  let LocalVelocity : FVector :=
    Engine.InverseTransformVector Character.ActorRotation WorldVelocity
  { Character with
    Camera :=
      { Character.Camera with
        FieldOfView :=
          FMath.FInterpTo Character.Camera.FieldOfView
            (TargetFOV Configuration cc.CameraConfigurationData LocalVelocity.X)
            Engine.DeltaSeconds 2 } }

/-- The function `GetFocalDistance()`, called on a controller whose character
is `Character`; the camera of a character is always present in this model. -/
def GetFocalDistance (Engine : UEngine) (Character : Option APlayerCharacter) : ℚ :=
  match Character with
  | none => 0
  | some Character =>
    let CameraLocation : FVector := Character.Camera.WorldLocation
    let ForwardVector : FVector := Engine.GetForwardVector Character.Camera.WorldRotation
    let TraceLength : ℚ := 50000
    let ForwardVector : FVector := ForwardVector.Scale TraceLength
    let End : FVector := CameraLocation.Add ForwardVector
    match Engine.LineTraceSingleByChannel CameraLocation End with
    | some Location => Engine.Size (Location.Sub CameraLocation)
    | none => TraceLength

/-- The function `UpdateCameraDepthOfField(DeltaTime)`; it returns the
character with the new depth-of-field settings of the camera. -/
def UpdateCameraDepthOfField (Engine : UEngine) (DeltaTime : ℚ) (Character : APlayerCharacter)
    (cc : UPlayerCameraController) : APlayerCharacter :=
  let Data : FPlayerCameraConfigurationData := cc.CameraConfigurationData
  let FocalDistance : ℚ := GetFocalDistance Engine (some Character)
  let FocalDistance : ℚ :=
    FMath.Clamp FocalDistance Data.MinimumFocalDistance Data.MaximumFocalDistance
  let BlurFocus : ℚ :=
    FMath.GetMappedRangeValueClamped Data.MinimumFocalDistance Data.MaximumFocalDistance
      Data.MacroBlurFocus Data.LongShotBlurFocus FocalDistance
  let BlurAmount : ℚ :=
    FMath.GetMappedRangeValueClamped Data.MinimumFocalDistance Data.MaximumFocalDistance
      Data.MacroBlurAmount Data.LongShotBlurAmount FocalDistance
  { Character with
    Camera :=
      { Character.Camera with
        DepthOfFieldSkyFocusDistance :=
          FMath.FInterpTo Character.Camera.DepthOfFieldSkyFocusDistance FocalDistance DeltaTime
            Data.DynamicDofSpeed
        DepthOfFieldDepthBlurAmount :=
          FMath.FInterpTo Character.Camera.DepthOfFieldDepthBlurAmount BlurFocus DeltaTime
            Data.DynamicDofSpeed
        DepthOfFieldDepthBlurRadius :=
          FMath.FInterpTo Character.Camera.DepthOfFieldDepthBlurRadius BlurAmount DeltaTime
            Data.DynamicDofSpeed } }

/-- The function `TickComponent(DeltaTime, TickType, ThisTickFunction)`. The
base class `UActorComponent` has no state in this model, so the call of
`Super::TickComponent` leaves the state as it is. -/
def TickComponent (Engine : UEngine) (DeltaTime : ℚ) (cc : UPlayerCameraController) :
    UPlayerCameraController :=
  match cc.PlayerCharacter, cc.PlayerCharacterController with
  | some Character, some Controller =>
    let Rotated : APlayerCharacter × UPlayerCameraController :=
      UpdateCameraRotation Engine Character Controller cc
    let Character1 : APlayerCharacter := UpdateCameraLocation Engine Rotated.1 Controller Rotated.2
    let Character2 : APlayerCharacter :=
      if cc.CameraConfigurationData.IsDynamicFOVEnabled then
        UpdateCameraFieldOfView Engine Character1 Rotated.2
      else
        Character1
    let Character3 : APlayerCharacter :=
      if cc.CameraConfigurationData.IsDynamicDOFEnabled then
        UpdateCameraDepthOfField Engine DeltaTime Character2 Rotated.2
      else
        Character2
    { Rotated.2 with PlayerCharacter := some Character3 }
  | _, _ => cc

end UPlayerCameraController

/-! ## What the specification says of the camera -/

/-- The pitch alpha in the words of the specification: 0 for a pitch of at
least -30, 1 for a pitch of at most -55, linear in between. -/
def SpecPitchAlpha (Pitch : ℚ) : ℚ :=
  if Pitch ≥ -30 then 0
  else if Pitch ≤ -55 then 1
  else (-30 - Pitch) / 25

/-- The camera offset in the words of the specification: the interpolation from
the upright to the downward camera location by the pitch alpha. -/
def SpecCameraOffset (Character : APlayerCharacter) (cc : UPlayerCameraController) : FVector :=
  FMath.LerpVector (UPlayerCameraController.UprightCameraLocation Character cc)
    (UPlayerCameraController.DownwardCameraLocation Character cc)
    (SpecPitchAlpha Character.Camera.WorldRotation.Pitch)

/-! ## Concrete states -/

/-- A movement component that walks on the ground, owned by a pawn that
controller `1` possesses. -/
def walkingMovement : UPlayerCharacterMovementComponent :=
  { Velocity := ⟨0, 0, 0⟩
    MovementMode := EMovementMode.MOVE_Walking
    PawnOwner := some ⟨some 1⟩
    bIsCrouched := false
    MaxWalkSpeed := 300
    JumpZVelocity := 440
    IsSprinting := false
    IsJumping := false
    OnLocomotionEvent := []
    OnJump := 0
    OnLanding := [] }

/-- A standing character in a world with a player subsystem whose locks are
released and with no fall-stun timer set; `Controller` is its player character
controller. -/
def standingCharacter (Controller : Option Nat) : APlayerCharacter :=
  { World := some ⟨some ⟨false, false⟩, none⟩
    PlayerCharacterController := Controller
    CharacterMovement := walkingMovement
    ActorLocation := ⟨0, 0, 88⟩
    CapsuleHalfHeight := 88
    IsTurningInPlace := false
    YawDelta := 0
    ActorRotation := ⟨0, 0, 0⟩
    Controller := Controller.map fun _ => ⟨⟨0, 0, 0⟩, 0⟩
    HasPlayerCharacterMovement := true
    CharacterConfiguration := none
    Camera := ⟨⟨22, 0, 163⟩, ⟨0, 0, 0⟩, 90, 0, 0, 0⟩
    HeadSocketTransform := ⟨⟨0, 0, 0, 1⟩, ⟨0, 0, 70⟩⟩ }

/-- A controller possessing `standingCharacter`, with everything enabled, the
stick pushed fully forward, and `Hit` as the answer to every line trace. -/
def standingController (Hit : Option FHitResult) : APlayerCharacterController :=
  { CharacterConfiguration :=
      { IsJumpingEnabled := true
        IsSprintingEnabled := true
        IsCrouchingEnabled := true
        EnableCrouchToggle := false
        WalkSpeed := 300
        SprintSpeed := 600
        JumpVelocity := 440
        RotationRate := 50 }
    PlayerCharacter := standingCharacter (some 1)
    LineTraceSingleByChannel := fun _ _ => Hit
    GetInputAxisValue := fun Axis =>
      match Axis with
      | EInputAxis.MoveLongitudinal => 1
      | _ => 0
    IsSprintPending := false
    IsCrouchPending := false
    UniqueID := 1 }

/-- The controller `standingController none` (nothing above the pawn) with the
sprint button held and a character that is crouched and not sprinting. -/
def crouchedSprintPendingController : APlayerCharacterController :=
  { standingController none with
    IsSprintPending := true
    PlayerCharacter :=
      { standingCharacter (some 1) with
        CharacterMovement := { walkingMovement with bIsCrouched := true } } }

/-- An engine for concrete evaluations: it does not rotate, traces hit nothing,
and a frame lasts 1/60 s. -/
def stillEngine : UEngine :=
  { Cos := fun _ => 1
    RotateVector := fun _ Vector => Vector
    InverseTransformVector := fun _ Vector => Vector
    Rotator := fun _ => ⟨0, 0, 0⟩
    RInterpTo := fun _ Target _ _ => Target
    GetForwardVector := fun _ => ⟨1, 0, 0⟩
    Size := fun Vector => Vector.X
    TimeSeconds := 0
    DeltaSeconds := 1 / 60
    LineTraceSingleByChannel := fun _ _ => none
    DefaultConfiguration :=
      { IsJumpingEnabled := true
        IsSprintingEnabled := true
        IsCrouchingEnabled := true
        EnableCrouchToggle := false
        WalkSpeed := 300
        SprintSpeed := 600
        JumpVelocity := 440
        RotationRate := 50 } }

/-- Camera settings for concrete evaluations, with every effect enabled. -/
def cameraSettings : FPlayerCameraConfigurationData :=
  { IsDynamicFOVEnabled := true
    IsDynamicDOFEnabled := true
    IsCameraSwayEnabled := true
    IsCentripetalRotationEnabled := true
    CameraOffset := ⟨22, 0, 75⟩
    DefaultFOV := 90
    SprintFOV := 96
    CameraShakeIntensity := 1
    VelocityCentripetalRotation := 1
    RotationCentripetalRotation := 1
    MaxCentripetalRotation := 5
    MinimumFocalDistance := 100
    MaximumFocalDistance := 10000
    MacroBlurFocus := 1
    LongShotBlurFocus := 2
    MacroBlurAmount := 1
    LongShotBlurAmount := 2
    DynamicDofSpeed := 4 }

/-- A camera controller on `standingCharacter (some 1)` that has not been told
of a player character controller yet. -/
def unpossessedCameraController : UPlayerCameraController :=
  { PlayerCharacter := some (standingCharacter (some 1))
    PlayerCharacterController := none
    CameraConfigurationData := cameraSettings
    HeadSocketTransform := ⟨⟨0, 0, 0, 1⟩, ⟨0, 0, 70⟩⟩
    InterpolatedHeadSocketRotation := ⟨0, 0, 0⟩
    CameraShakeRoll := 0
    CameraLeanRoll := 0 }

/-! ## Theorems: movement component -/

open UPlayerCharacterMovementComponent

/-- C1: after `SetIsSprinting Value Controller` the flag read by
`GetIsSprinting` equals `Value` when the component has a pawn owner whose
controller is `Controller`, and is the flag from before the call when there is
no pawn owner or the pawn's controller is a different one. -/
theorem SetIsSprinting_flag (Value : Bool) (Controller : Option Nat)
    (s : UPlayerCharacterMovementComponent) :
    ((∃ Pawn, s.PawnOwner = some Pawn ∧ Pawn.Controller = Controller) ∧
        GetIsSprinting (SetIsSprinting Value Controller s) = Value) ∨
    ((¬ ∃ Pawn, s.PawnOwner = some Pawn ∧ Pawn.Controller = Controller) ∧
        GetIsSprinting (SetIsSprinting Value Controller s) = GetIsSprinting s) := by
  unfold SetIsSprinting GetIsSprinting
  cases hP : s.PawnOwner with
  | none => right; simp
  | some Pawn =>
    by_cases hC : Pawn.Controller = Controller
    · left
      refine ⟨⟨Pawn, rfl, hC⟩, ?_⟩
      by_cases hV : s.IsSprinting = Value
      · simp [hV]
      · cases Value <;> simp [hV, hC]
    · right
      refine ⟨by simpa using hC, ?_⟩
      by_cases hV : s.IsSprinting = Value
      · simp [hV]
      · cases Value <;> simp [hV, hC]

/-- C2: `GetGroundMovementType` is `Sprinting` when `IsSprinting` is set;
otherwise it is `Walking` exactly when the character moves on ground with a
squared velocity length of at least 25, and `Idle` in every remaining state. -/
theorem GetGroundMovementType_spec (s : UPlayerCharacterMovementComponent) :
    (s.IsSprinting = true ∧ GetGroundMovementType s = EPlayerGroundMovementType.Sprinting) ∨
    (s.IsSprinting = false ∧ s.IsMovingOnGround = true ∧ 25 ≤ s.Velocity.SquaredLength ∧
        GetGroundMovementType s = EPlayerGroundMovementType.Walking) ∨
    (s.IsSprinting = false ∧ ¬ (s.IsMovingOnGround = true ∧ 25 ≤ s.Velocity.SquaredLength) ∧
        GetGroundMovementType s = EPlayerGroundMovementType.Idle) := by
  unfold GetGroundMovementType
  by_cases hS : s.IsSprinting = true
  · left; simp [hS]
  · right
    have hS' : s.IsSprinting = false := by simpa using hS
    by_cases hW : s.IsMovingOnGround = true ∧ 25 ≤ s.Velocity.SquaredLength
    · left; simp [hS', hW.1, hW.2]
    · right
      refine ⟨hS', hW, ?_⟩
      by_cases hG : s.IsMovingOnGround = true
      · have : ¬ 25 ≤ s.Velocity.SquaredLength := fun h => hW ⟨hG, h⟩
        simp [hS', hG, this]
      · simp [hS', hG]

/-- C3: one call of `ProcessLanded` adds exactly one broadcast to `OnLanding`,
of type `Heavy` when `Velocity.Z < -1300`, `Hard` when
`-1300 ≤ Velocity.Z < -1000` and `Soft` when `Velocity.Z ≥ -1000`. -/
theorem ProcessLanded_broadcasts_once
    (Super : UCharacterMovementComponent → UCharacterMovementComponent)
    (s : UPlayerCharacterMovementComponent) :
    (s.Velocity.Z < -1300 ∧
        (ProcessLanded Super s).OnLanding = s.OnLanding ++ [EPlayerLandingType.Heavy]) ∨
    ((-1300 ≤ s.Velocity.Z ∧ s.Velocity.Z < -1000) ∧
        (ProcessLanded Super s).OnLanding = s.OnLanding ++ [EPlayerLandingType.Hard]) ∨
    (-1000 ≤ s.Velocity.Z ∧
        (ProcessLanded Super s).OnLanding = s.OnLanding ++ [EPlayerLandingType.Soft]) := by
  unfold ProcessLanded
  by_cases h1 : s.Velocity.Z < -1000
  · by_cases h2 : s.Velocity.Z < -1300
    · left; simp [h1, h2]
    · right; left
      exact ⟨⟨not_lt.mp h2, h1⟩, by simp [h1, h2]⟩
  · right; right
    exact ⟨not_lt.mp h1, by simp [h1]⟩

/-! ## Theorems: character -/

open APlayerCharacter

/-- C4: `HandleLanding` of a soft landing returns the character unchanged (no
lock set, no timer started, movement not stopped); of a hard or heavy landing,
when the world and its player subsystem exist, it sets the movement and the
rotation input lock to true and starts the one-shot fall-stun timer with 1.85
seconds for `Hard` and 4.5 seconds for `Heavy`. -/
theorem HandleLanding_spec (s : APlayerCharacter) :
    HandleLanding EPlayerLandingType.Soft s = s ∧
    ∀ World Subsystem, s.World = some World → World.PlayerSubsystem = some Subsystem →
      (MovementInputLock (HandleLanding EPlayerLandingType.Hard s) = some true ∧
        RotationInputLock (HandleLanding EPlayerLandingType.Hard s) = some true ∧
        FallStunTimer (HandleLanding EPlayerLandingType.Hard s) = some ⟨185 / 100, false⟩) ∧
      (MovementInputLock (HandleLanding EPlayerLandingType.Heavy s) = some true ∧
        RotationInputLock (HandleLanding EPlayerLandingType.Heavy s) = some true ∧
        FallStunTimer (HandleLanding EPlayerLandingType.Heavy s) = some ⟨45 / 10, false⟩) := by
  refine ⟨rfl, ?_⟩
  intro World Subsystem hW hS
  simp [HandleLanding, StunDuration, MovementInputLock, RotationInputLock, FallStunTimer, hW, hS,
    UPlayerSubsystem.SetPlayerMovementInputLock, UPlayerSubsystem.SetPlayerRotationInputLock]

/-- C4 at `standingCharacter none`: both parts of the statement, with the world
and the subsystem of that character. -/
theorem HandleLanding_spec_witness :
    HandleLanding EPlayerLandingType.Soft (standingCharacter none) = standingCharacter none ∧
    MovementInputLock (HandleLanding EPlayerLandingType.Hard (standingCharacter none))
      = some true ∧
    FallStunTimer (HandleLanding EPlayerLandingType.Heavy (standingCharacter none))
      = some ⟨45 / 10, false⟩ :=
  ⟨(HandleLanding_spec (standingCharacter none)).1,
    ((HandleLanding_spec (standingCharacter none)).2 _ _ rfl rfl).1.1,
    ((HandleLanding_spec (standingCharacter none)).2 _ _ rfl rfl).2.2.2⟩

/-- C5, as stated, fails: for a character without a player character controller,
in a world with a player subsystem, a hard landing followed by `HandleLandingEnd`
leaves both input locks set. -/
theorem HandleLandingEnd_keeps_locks_without_controller :
    (standingCharacter none).World = some ⟨some ⟨false, false⟩, none⟩ ∧
    MovementInputLock
      (HandleLandingEnd (HandleLanding EPlayerLandingType.Hard (standingCharacter none)))
      = some true ∧
    RotationInputLock
      (HandleLandingEnd (HandleLanding EPlayerLandingType.Hard (standingCharacter none)))
      = some true := by
  refine ⟨rfl, ?_, ?_⟩ <;>
    simp [HandleLandingEnd, HandleLanding, StunDuration, MovementInputLock, RotationInputLock,
      standingCharacter, UPlayerSubsystem.SetPlayerMovementInputLock,
      UPlayerSubsystem.SetPlayerRotationInputLock]

/-- C5, amended: when the world and the player subsystem exist and the character
has a player character controller, a hard or heavy landing followed by
`HandleLandingEnd` leaves the movement and the rotation input lock released. -/
theorem HandleLandingEnd_releases_locks (s : APlayerCharacter) (Value : EPlayerLandingType)
    (World : UWorld) (Subsystem : UPlayerSubsystem) (Controller : Nat)
    (hV : Value = EPlayerLandingType.Hard ∨ Value = EPlayerLandingType.Heavy)
    (hW : s.World = some World) (hS : World.PlayerSubsystem = some Subsystem)
    (hC : s.PlayerCharacterController = some Controller) :
    MovementInputLock (HandleLandingEnd (HandleLanding Value s)) = some false ∧
    RotationInputLock (HandleLandingEnd (HandleLanding Value s)) = some false := by
  rcases hV with hV | hV <;> subst hV <;>
    simp [HandleLandingEnd, HandleLanding, StunDuration, MovementInputLock, RotationInputLock,
      hW, hS, hC, UPlayerSubsystem.SetPlayerMovementInputLock,
      UPlayerSubsystem.SetPlayerRotationInputLock]

/-- C5, amended, at `standingCharacter (some 1)` and a heavy landing. -/
theorem HandleLandingEnd_releases_locks_witness :
    MovementInputLock
      (HandleLandingEnd (HandleLanding EPlayerLandingType.Heavy (standingCharacter (some 1))))
      = some false ∧
    RotationInputLock
      (HandleLandingEnd (HandleLanding EPlayerLandingType.Heavy (standingCharacter (some 1))))
      = some false :=
  HandleLandingEnd_releases_locks (standingCharacter (some 1)) EPlayerLandingType.Heavy
    ⟨some ⟨false, false⟩, none⟩ ⟨false, false⟩ 1 (Or.inr rfl) rfl rfl rfl

/-- C6 at `YawDelta = 180`, `DeltaTime = 1/4`, `Factor = 4`, `Clamp = 45` (the
factor and clamp of the call in `UpdateRotation`): the inputs satisfy the
claim's conditions, the function returns 315, and the yaw delta left after that
rotation, 135 in absolute value, exceeds `Clamp`. -/
theorem CalculateTurnInPlaceRotation_overshoots :
    ((-180 : ℚ) ≤ 180 ∧ (180 : ℚ) ≤ 180) ∧ (0 : ℚ) ≤ 45 ∧
    ((0 : ℚ) ≤ 4 * (1 / 4) ∧ (4 : ℚ) * (1 / 4) ≤ 1) ∧
    CalculateTurnInPlaceRotation 180 (1 / 4) 4 45 = 315 ∧
    ¬ |180 - CalculateTurnInPlaceRotation 180 (1 / 4) 4 45| ≤ 45 := by
  have h : CalculateTurnInPlaceRotation 180 (1 / 4) 4 45 = 315 := by
    norm_num [CalculateTurnInPlaceRotation, abs_of_nonneg]
  refine ⟨by norm_num, by norm_num, by norm_num, h, ?_⟩
  rw [h]
  norm_num [abs_of_neg]

/-! ## Theorems: controller -/

open APlayerCharacterController

/-- C7: `CanJump` is true exactly when jumping is enabled in the character
configuration, the character is not falling, and the clearance above the pawn
is greater than 60 or is the no-hit value -1. -/
theorem CanJump_iff (c : APlayerCharacterController) :
    CanJump c = true ↔
      c.CharacterConfiguration.IsJumpingEnabled = true ∧
      c.PlayerCharacter.CharacterMovement.IsFalling = false ∧
      (GetClearanceAbovePawn c > 60 ∨ GetClearanceAbovePawn c = -1) := by
  simp only [CanJump, Bool.and_eq_true, Bool.or_eq_true, decide_eq_true_eq, Bool.not_eq_true']
  tauto

/-- C8 on a hit 87 units above a pawn whose capsule half height is 88: the
collision query produced a hit, and `GetClearanceAbovePawn` still returns the
no-hit value -1. -/
theorem GetClearanceAbovePawn_hit_returns_no_hit_value :
    (standingController (some ⟨87⟩)).LineTraceSingleByChannel
        (standingController (some ⟨87⟩)).PlayerCharacter.ActorLocation
        ⟨0 + 0, 0 + 0, 88 + 500⟩ = some ⟨87⟩ ∧
    GetClearanceAbovePawn (standingController (some ⟨87⟩)) = -1 := by
  refine ⟨rfl, ?_⟩
  norm_num [GetClearanceAbovePawn, standingController, standingCharacter]

/-- C9 on a standing (not crouching) character with a hit 300 units above it,
a clearance of 212: `CanStandUp` returns true although the character is not
crouching. -/
theorem CanStandUp_true_when_not_crouching :
    (standingController (some ⟨300⟩)).PlayerCharacter.CharacterMovement.IsCrouching = false ∧
    GetClearanceAbovePawn (standingController (some ⟨300⟩)) = 212 ∧
    CanStandUp (standingController (some ⟨300⟩)) = true := by
  have h : GetClearanceAbovePawn (standingController (some ⟨300⟩)) = 212 := by
    norm_num [GetClearanceAbovePawn, standingController, standingCharacter]
  refine ⟨rfl, h, ?_⟩
  simp only [CanStandUp, h]
  norm_num

/-- C10: `CanSprint` is true exactly when sprinting is enabled in the character
configuration, the character is moving on ground, the longitudinal input axis
is greater than 0.5, and the absolute value of the lateral input axis does not
exceed the longitudinal input. -/
theorem CanSprint_iff (c : APlayerCharacterController) :
    CanSprint c = true ↔
      c.CharacterConfiguration.IsSprintingEnabled = true ∧
      c.PlayerCharacter.CharacterMovement.IsMovingOnGround = true ∧
      c.GetInputAxisValue EInputAxis.MoveLongitudinal > 1 / 2 ∧
      |c.GetInputAxisValue EInputAxis.MoveLateral| ≤
        c.GetInputAxisValue EInputAxis.MoveLongitudinal := by
  simp only [CanSprint, Bool.and_eq_true, decide_eq_true_eq]
  tauto

/-! ## Theorems: turn in place -/

/-- C13: for fixed `DeltaTime`, `Factor` and `Clamp` with `Factor * DeltaTime ≥ 0`
and `Clamp ≥ 0`, `CalculateTurnInPlaceRotation` is monotone non-decreasing in
`YawDelta`. -/
theorem CalculateTurnInPlaceRotation_monotone (YawDelta1 YawDelta2 DeltaTime Factor Clamp : ℚ)
    (hFactor : 0 ≤ Factor * DeltaTime) (_hClamp : 0 ≤ Clamp) (hYaw : YawDelta1 ≤ YawDelta2) :
    CalculateTurnInPlaceRotation YawDelta1 DeltaTime Factor Clamp ≤
      CalculateTurnInPlaceRotation YawDelta2 DeltaTime Factor Clamp := by
  have hRotation : YawDelta1 * Factor * DeltaTime ≤ YawDelta2 * Factor * DeltaTime := by
    rw [mul_assoc, mul_assoc]
    exact mul_le_mul_of_nonneg_right hYaw hFactor
  unfold CalculateTurnInPlaceRotation
  dsimp only
  rcases abs_cases YawDelta1 with ⟨h1, h1s⟩ | ⟨h1, h1s⟩ <;>
    rcases abs_cases YawDelta2 with ⟨h2, h2s⟩ | ⟨h2, h2s⟩ <;>
    rw [h1, h2] <;> split_ifs <;> linarith

/-- C13 at the yaw deltas 10 and 100 with the factor 4 and the clamp 45 of
`UpdateRotation` and a frame of 1/60 s. -/
theorem CalculateTurnInPlaceRotation_monotone_witness :
    CalculateTurnInPlaceRotation 10 (1 / 60) 4 45 ≤
      CalculateTurnInPlaceRotation 100 (1 / 60) 4 45 :=
  CalculateTurnInPlaceRotation_monotone 10 100 (1 / 60) 4 45 (by norm_num) (by norm_num)
    (by norm_num)

/-- The flag `IsTurningInPlace` after the stationary branch of `UpdateRotation`,
as a function of the yaw delta and of the flag before. -/
theorem UpdateRotationStationary_flag (DeltaTime : ℚ) (s : APlayerCharacter) :
    (UpdateRotationStationary DeltaTime s).IsTurningInPlace =
      if |s.YawDelta| ≤ 1 / 2 then false
      else if |s.YawDelta| > 30 then true
      else s.IsTurningInPlace := by
  unfold UpdateRotationStationary FMath.IsNearlyEqual AddActorWorldRotation
  dsimp only
  simp only [sub_zero, decide_eq_true_eq]
  split_ifs <;> rfl

/-- The branch of `UpdateRotation` taken without a movement component, or with
one that neither falls nor moves on ground with `|Velocity.X| > 1`. -/
theorem UpdateRotation_stationary_branch (MovementComponent : Option UCharacterMovementComponent)
    (DeltaTime : ℚ) (s : APlayerCharacter)
    (hStationary : MovementComponent = none ∨
      ∃ Movement, MovementComponent = some Movement ∧ Movement.IsFalling = false ∧
        ¬ (Movement.IsMovingOnGround = true ∧ |Movement.Velocity.X| > 1)) :
    UpdateRotation MovementComponent DeltaTime s = UpdateRotationStationary DeltaTime s := by
  rcases hStationary with h | ⟨Movement, h, hFalling, hGround⟩
  · simp [UpdateRotation, h]
  · have hCond : ((Movement.IsMovingOnGround && decide (|Movement.Velocity.X| > 1)) ||
        Movement.IsFalling) = false := by
      simp only [hFalling, Bool.or_false, Bool.and_eq_false_iff, decide_eq_false_iff_not]
      by_cases hG : Movement.IsMovingOnGround = true
      · right; exact fun hV => hGround ⟨hG, hV⟩
      · left; simpa using hG
    simp only [UpdateRotation, h, hCond]
    rfl

/-- C14: in the stationary branch of `UpdateRotation` (no movement component,
or a component that is not falling and is not moving on ground with
`|Velocity.X| > 1`) the flag `IsTurningInPlace` after the call is false when
`|YawDelta| ≤ 0.5`, true when `|YawDelta| > 30`, and the flag from before the
call when `0.5 < |YawDelta| ≤ 30`. -/
theorem UpdateRotation_stationary_flag (MovementComponent : Option UCharacterMovementComponent)
    (DeltaTime : ℚ) (s : APlayerCharacter)
    (hStationary : MovementComponent = none ∨
      ∃ Movement, MovementComponent = some Movement ∧ Movement.IsFalling = false ∧
        ¬ (Movement.IsMovingOnGround = true ∧ |Movement.Velocity.X| > 1)) :
    (|s.YawDelta| ≤ 1 / 2 ∧
        GetIsTurningInPlace (UpdateRotation MovementComponent DeltaTime s) = false) ∨
    (|s.YawDelta| > 30 ∧
        GetIsTurningInPlace (UpdateRotation MovementComponent DeltaTime s) = true) ∨
    ((1 / 2 < |s.YawDelta| ∧ |s.YawDelta| ≤ 30) ∧
        GetIsTurningInPlace (UpdateRotation MovementComponent DeltaTime s) =
          GetIsTurningInPlace s) := by
  rw [UpdateRotation_stationary_branch MovementComponent DeltaTime s hStationary]
  unfold GetIsTurningInPlace
  rw [UpdateRotationStationary_flag]
  by_cases hNear : |s.YawDelta| ≤ 1 / 2
  · left
    exact ⟨hNear, if_pos hNear⟩
  · by_cases hFar : |s.YawDelta| > 30
    · right; left
      refine ⟨hFar, ?_⟩
      rw [if_neg hNear, if_pos hFar]
    · right; right
      refine ⟨⟨not_le.mp hNear, not_lt.mp hFar⟩, ?_⟩
      rw [if_neg hNear, if_neg hFar]

/-- C14 at `standingCharacter none`, whose yaw delta is 0, without a movement
component: the flag is false after the call. -/
theorem UpdateRotation_stationary_flag_witness :
    (|(standingCharacter none).YawDelta| ≤ 1 / 2 ∧
        GetIsTurningInPlace (UpdateRotation none (1 / 60) (standingCharacter none)) = false) ∨
    (|(standingCharacter none).YawDelta| > 30 ∧
        GetIsTurningInPlace (UpdateRotation none (1 / 60) (standingCharacter none)) = true) ∨
    ((1 / 2 < |(standingCharacter none).YawDelta| ∧ |(standingCharacter none).YawDelta| ≤ 30) ∧
        GetIsTurningInPlace (UpdateRotation none (1 / 60) (standingCharacter none)) =
          GetIsTurningInPlace (standingCharacter none)) :=
  UpdateRotation_stationary_flag none (1 / 60) (standingCharacter none) (Or.inl rfl)

/-! ## Theorems: pending actions -/

/-- C12 on `crouchedSprintPendingController`: before the call the character is
crouching and not sprinting, a sprint can start (`CanSprint` and
`CanStandUp` hold), and after `UpdatePendingActions` the character is both
sprinting and crouching, whatever the engine's `Crouch` does. -/
theorem UpdatePendingActions_sprints_while_crouching
    (Crouch : APlayerCharacter → APlayerCharacter) :
    (IsCharacterSprinting crouchedSprintPendingController = false ∧
      IsCharacterCrouching crouchedSprintPendingController = true) ∧
    (CanSprint crouchedSprintPendingController = true ∧
      CanStandUp crouchedSprintPendingController = true) ∧
    (IsCharacterSprinting (UpdatePendingActions Crouch crouchedSprintPendingController) = true ∧
      IsCharacterCrouching (UpdatePendingActions Crouch crouchedSprintPendingController)
        = true) := by
  have hSprint : CanSprint crouchedSprintPendingController = true := by
    norm_num [CanSprint, crouchedSprintPendingController, standingController, walkingMovement,
      UCharacterMovementComponent.IsMovingOnGround]
  have hStand : CanStandUp crouchedSprintPendingController = true := by
    norm_num [CanStandUp, GetClearanceAbovePawn, crouchedSprintPendingController,
      standingController, walkingMovement, UCharacterMovementComponent.IsCrouching]
  refine ⟨⟨rfl, rfl⟩, ⟨hSprint, hStand⟩, ?_⟩
  have hStep : UpdatePendingActions Crouch crouchedSprintPendingController =
      { StartSprinting (StopCrouching crouchedSprintPendingController) with
        IsCrouchPending := false } := by
    have h1 : IsCharacterSprinting crouchedSprintPendingController = false := rfl
    have h2 : IsCharacterCrouching crouchedSprintPendingController = true := rfl
    have h3 : crouchedSprintPendingController.IsSprintPending = true := rfl
    have h4 : crouchedSprintPendingController.PlayerCharacter.GetPlayerCharacterMovement.isSome
        = true := rfl
    have h5 : IsCharacterCrouching
        { StartSprinting (StopCrouching crouchedSprintPendingController) with
          IsCrouchPending := false } = true := rfl
    simp [UpdatePendingActions, h1, h2, h3, h4, h5, hSprint, hStand]
  rw [hStep]
  exact ⟨rfl, rfl⟩

/-! ## Theorems: camera controller -/

open UPlayerCameraController

/-- C11: when the camera controller has no player character or no player
character controller, `TickComponent` returns the state it was given: the
character with its camera (location, rotation, field of view, depth-of-field
settings) and the interpolation state of the controller (`CameraShakeRoll`,
`CameraLeanRoll`, `InterpolatedHeadSocketRotation`) are unchanged. -/
theorem TickComponent_without_character_or_controller (Engine : UEngine) (DeltaTime : ℚ)
    (cc : UPlayerCameraController)
    (hNull : cc.PlayerCharacter = none ∨ cc.PlayerCharacterController = none) :
    TickComponent Engine DeltaTime cc = cc := by
  unfold TickComponent
  rcases hNull with h | h
  · rw [h]
  · rw [h]
    cases cc.PlayerCharacter <;> rfl

/-- C11 at `unpossessedCameraController`, which has a character and no player
character controller. -/
theorem TickComponent_without_character_or_controller_witness :
    TickComponent stillEngine (1 / 60) unpossessedCameraController =
      unpossessedCameraController :=
  TickComponent_without_character_or_controller stillEngine (1 / 60)
    unpossessedCameraController (Or.inr rfl)

/-- The clamp to the unit interval lies in the unit interval. -/
theorem FMath.Clamp_unit (X : ℚ) : 0 ≤ FMath.Clamp X 0 1 ∧ FMath.Clamp X 0 1 ≤ 1 := by
  unfold FMath.Clamp
  split_ifs with h0 h1
  · exact ⟨le_refl 0, zero_le_one⟩
  · exact ⟨not_lt.mp h0, le_of_lt h1⟩
  · exact ⟨zero_le_one, le_refl 1⟩

/-- The clamp to the unit interval of a value of at least 1 is 1. -/
theorem FMath.Clamp_unit_of_one_le (X : ℚ) (hX : 1 ≤ X) : FMath.Clamp X 0 1 = 1 := by
  unfold FMath.Clamp
  rw [if_neg (by linarith), if_neg (by linarith)]

/-- The mapping of the pitch range (-30, -55) to (0, 1), clamped, is the pitch
alpha of the specification. -/
theorem FMath.GetMappedRangeValueClamped_pitch (Pitch : ℚ) :
    FMath.GetMappedRangeValueClamped (-30) (-55) 0 1 Pitch = SpecPitchAlpha Pitch := by
  have hDivisor : FMath.IsNearlyZero (-55 - -30) = false := by
    have hAbs : |(-55 : ℚ) - -30| = 25 := by norm_num [abs_of_neg]
    unfold FMath.IsNearlyZero FMath.SmallNumber
    rw [hAbs]
    norm_num
  obtain ⟨q, hq⟩ : ∃ q : ℚ, Pitch = -30 - 25 * q := ⟨(-30 - Pitch) / 25, by ring⟩
  have hPct : (Pitch - -30) / (-55 - -30) = q := by
    rw [hq]
    field_simp
    ring
  have hSpec : (-30 - Pitch) / 25 = q := by
    rw [hq]
    field_simp
  unfold FMath.GetMappedRangeValueClamped FMath.GetRangeValue FMath.Lerp FMath.GetRangePct
    FMath.Clamp SpecPitchAlpha
  dsimp only
  rw [hDivisor]
  simp only [Bool.false_eq_true, if_false, hPct, hSpec]
  split_ifs <;> linarith

/-- C15: for every camera pitch, the offset that `UpdateCameraLocation` computes
before rotating it by the control yaw is the interpolation from
`UprightCameraLocation` to `DownwardCameraLocation` by a pitch alpha that is 0
for a pitch of at least -30, 1 for a pitch of at most -55 and linear in
between; this alpha lies in [0, 1], and the branch taken for a pitch alpha of 0
returns what the interpolating branch returns for it. -/
theorem UpdateCameraLocation_offset (Character : APlayerCharacter) (cc : UPlayerCameraController) :
    CameraLocationResult Character cc = SpecCameraOffset Character cc ∧
    PitchAlpha Character = SpecPitchAlpha Character.Camera.WorldRotation.Pitch ∧
    (0 ≤ SpecPitchAlpha Character.Camera.WorldRotation.Pitch ∧
      SpecPitchAlpha Character.Camera.WorldRotation.Pitch ≤ 1) ∧
    cc.CameraConfigurationData.CameraOffset.Add
        ((SocketLocation Character cc).Scale (if !Character.GetIsTurningInPlace then 1 else 0)) =
      FMath.LerpVector (UprightCameraLocation Character cc) (DownwardCameraLocation Character cc)
        0 := by
  have hAlpha : PitchAlpha Character = SpecPitchAlpha Character.Camera.WorldRotation.Pitch :=
    FMath.GetMappedRangeValueClamped_pitch Character.Camera.WorldRotation.Pitch
  have hZero : ∀ A B : FVector, FMath.LerpVector A B 0 = A := by
    intro A B
    simp [FMath.LerpVector, FVector.Add, FVector.Sub, FVector.Scale]
  have hUnit : 0 ≤ SpecPitchAlpha Character.Camera.WorldRotation.Pitch ∧
      SpecPitchAlpha Character.Camera.WorldRotation.Pitch ≤ 1 := by
    unfold SpecPitchAlpha
    split_ifs with h1 h2
    · exact ⟨le_refl 0, zero_le_one⟩
    · exact ⟨zero_le_one, le_refl 1⟩
    · constructor
      · apply div_nonneg <;> linarith
      · rw [div_le_one (by norm_num)]
        linarith
  refine ⟨?_, hAlpha, hUnit, ?_⟩
  · unfold CameraLocationResult SpecCameraOffset
    rw [← hAlpha]
    by_cases h0 : PitchAlpha Character = 0
    · rw [if_pos h0, h0, hZero]
      rfl
    · rw [if_neg h0]
  · rw [hZero]
    rfl

/-- The clamped mapping onto an output range lies between the two ends of that
range. -/
theorem FMath.GetMappedRangeValueClamped_between (InputX InputY OutputX OutputY Value : ℚ) :
    min OutputX OutputY ≤ FMath.GetMappedRangeValueClamped InputX InputY OutputX OutputY Value ∧
    FMath.GetMappedRangeValueClamped InputX InputY OutputX OutputY Value ≤
      max OutputX OutputY := by
  unfold FMath.GetMappedRangeValueClamped FMath.GetRangeValue FMath.Lerp
  dsimp only
  obtain ⟨h0, h1⟩ := FMath.Clamp_unit (FMath.GetRangePct InputX InputY Value)
  generalize FMath.Clamp (FMath.GetRangePct InputX InputY Value) 0 1 = Pct at h0 h1
  rcases le_total OutputX OutputY with h | h
  · rw [min_eq_left h, max_eq_right h]
    constructor <;> nlinarith
  · rw [min_eq_right h, max_eq_left h]
    constructor <;> nlinarith

/-- The clamped mapping of a value at or beyond the upper end of an increasing
input range is the upper end of the output range. -/
theorem FMath.GetMappedRangeValueClamped_top (InputX InputY OutputX OutputY Value : ℚ)
    (hRange : InputX < InputY) (hValue : InputY ≤ Value) :
    FMath.GetMappedRangeValueClamped InputX InputY OutputX OutputY Value = OutputY := by
  have hPct : 1 ≤ FMath.GetRangePct InputX InputY Value := by
    unfold FMath.GetRangePct
    dsimp only
    split_ifs with hZero
    · exact le_refl 1
    · rw [le_div_iff₀ (by linarith)]
      linarith
  unfold FMath.GetMappedRangeValueClamped FMath.GetRangeValue FMath.Lerp
  dsimp only
  rw [FMath.Clamp_unit_of_one_le _ hPct]
  ring

/-- C16: with `SprintSpeed > 1.1 * WalkSpeed`, the target field of view of
`UpdateCameraFieldOfView` is `DefaultFOV` for a forward local speed of at most
`1.1 * WalkSpeed`, is `SprintFOV` for a forward local speed of at least
`SprintSpeed`, and for every speed lies between `DefaultFOV` and `SprintFOV`
inclusive. -/
theorem TargetFOV_spec (Configuration : UPlayerCharacterConfiguration)
    (CameraConfigurationData : FPlayerCameraConfigurationData)
    (hSpeeds : Configuration.SprintSpeed > 11 / 10 * Configuration.WalkSpeed) :
    (∀ LocalVelocityX : ℚ, LocalVelocityX ≤ 11 / 10 * Configuration.WalkSpeed →
      TargetFOV Configuration CameraConfigurationData LocalVelocityX =
        CameraConfigurationData.DefaultFOV) ∧
    (∀ LocalVelocityX : ℚ, LocalVelocityX ≥ Configuration.SprintSpeed →
      TargetFOV Configuration CameraConfigurationData LocalVelocityX =
        CameraConfigurationData.SprintFOV) ∧
    (∀ LocalVelocityX : ℚ,
      min CameraConfigurationData.DefaultFOV CameraConfigurationData.SprintFOV ≤
        TargetFOV Configuration CameraConfigurationData LocalVelocityX ∧
      TargetFOV Configuration CameraConfigurationData LocalVelocityX ≤
        max CameraConfigurationData.DefaultFOV CameraConfigurationData.SprintFOV) := by
  refine ⟨?_, ?_, ?_⟩
  · intro LocalVelocityX hSlow
    unfold TargetFOV
    rw [if_neg (by linarith)]
  · intro LocalVelocityX hFast
    unfold TargetFOV
    rw [if_pos (by linarith)]
    exact FMath.GetMappedRangeValueClamped_top _ _ _ _ _ (by linarith) hFast
  · intro LocalVelocityX
    unfold TargetFOV
    split_ifs
    · exact FMath.GetMappedRangeValueClamped_between _ _ _ _ _
    · exact ⟨min_le_left _ _, le_max_left _ _⟩

/-- C16 at the speeds 300 and 600 and the fields of view 90 and 96 of
`stillEngine` and `cameraSettings`: the target is 90 at a speed of 330, 96 at a
speed of 600, and between the two at a speed of 450. -/
theorem TargetFOV_spec_witness :
    TargetFOV stillEngine.DefaultConfiguration cameraSettings 330 = 90 ∧
    TargetFOV stillEngine.DefaultConfiguration cameraSettings 600 = 96 ∧
    (min 90 96 ≤ TargetFOV stillEngine.DefaultConfiguration cameraSettings 450 ∧
      TargetFOV stillEngine.DefaultConfiguration cameraSettings 450 ≤ max 90 96) :=
  have hSpeeds : stillEngine.DefaultConfiguration.SprintSpeed >
      11 / 10 * stillEngine.DefaultConfiguration.WalkSpeed := by
    norm_num [stillEngine]
  ⟨(TargetFOV_spec stillEngine.DefaultConfiguration cameraSettings hSpeeds).1 330
      (by norm_num [stillEngine]),
    (TargetFOV_spec stillEngine.DefaultConfiguration cameraSettings hSpeeds).2.1 600
      (by norm_num [stillEngine]),
    (TargetFOV_spec stillEngine.DefaultConfiguration cameraSettings hSpeeds).2.2 450⟩

end Frostbite
